import Mathlib

/-!
Verification of the world-bank MCP server (src/server.py) against its
specification.  The server is shallowly embedded: Python dict/list/JSON
values become the `Json` inductive; the polars data frame loaded from the
CSV file becomes `DataFrame` (CSV cells are scalars, so cells are the flat
`Cell` type); the outcome of the single outbound httpx call of each tool
becomes the `FetchResult` inductive (the httpx exception classes caught in
the source are its constructors); Python code that may raise is embedded as
`Except String` with the exception text as the error.  Numeric JSON values
are modelled as integers: the server never computes with numbers, it only
moves them around.
-/

/-- JSON values / Python objects as handled by the server.  Object fields
keep insertion order, as Python dicts do. -/
inductive Json where
  | null
  | bool (b : Bool)
  | num (n : Int)
  | str (s : String)
  | arr (elems : List Json)
  | obj (fields : List (String × Json))

/-- A scalar value in a cell of the loaded CSV table.  `polars.read_csv`
only ever produces scalar columns, so table cells need no nesting. -/
inductive Cell where
  | null
  | num (n : Int)
  | str (s : String)
deriving DecidableEq

/-- An in-memory table, standing for the `polars.DataFrame` the loader
returns: column names, their dtype names (what `str(dtype)` prints), and
the rows. -/
structure DataFrame where
  columns : List String
  dtypes : List String
  rows : List (List Cell)
deriving DecidableEq

/-- The ambient state a handler runs in: the content of the data file at
`DATA_FILE` (`none` when the file is missing), plus state unrelated to the
file (modelled as a counter) that repeated calls may differ in. -/
structure World where
  file : Option DataFrame
  clock : Nat
deriving DecidableEq

/-- The relative path of the data file (`DATA_FILE` in the source). -/
def DATA_FILE : String := "data/world_bank_indicators.csv"

/-- Embeds `_load_data` (server.py lines 47-51): raises `FileNotFoundError`
when the file is missing, otherwise returns the parsed frame. -/
def _load_data (w : World) : Except String DataFrame :=
  match w.file with
  | none => .error ("Data file not found: " ++ DATA_FILE)
  | some df => .ok df

/-- First-occurrence lookup in an ordered association list, as Python dict
lookup behaves (keys are unique in a dict, so first occurrence is the
occurrence). -/
def lookupStr : List (String × Json) → String → Option Json
  | [], _ => none
  | kv :: rest, key => if kv.1 == key then some kv.2 else lookupStr rest key

/-- Embeds Python `d.get(key, default)`: returns the default when the key
is absent, raises `AttributeError` when the receiver is not a dict. -/
def pyDictGet (j : Json) (key : String) (dflt : Json) : Except String Json :=
  match j with
  | .obj fs => .ok ((lookupStr fs key).getD dflt)
  | _ => .error "AttributeError: object has no attribute get"

/-- Embeds Python `d[key]` for a string key: `KeyError` when absent,
`TypeError` when the receiver is not a dict. -/
def pySubscript (j : Json) (key : String) : Except String Json :=
  match j with
  | .obj fs =>
    match lookupStr fs key with
    | some v => .ok v
    | none => .error ("KeyError: " ++ key)
  | _ => .error "TypeError: object is not subscriptable"

/-- Embeds Python `x[0]`: first element of a list, first character of a
string, `IndexError` when empty, `KeyError`/`TypeError` otherwise. -/
def pyIndex0 (j : Json) : Except String Json :=
  match j with
  | .arr (x :: _) => .ok x
  | .arr [] => .error "list index out of range"
  | .str s =>
    match s.data with
    | c :: _ => .ok (.str (String.mk [c]))
    | [] => .error "string index out of range"
  | .obj _ => .error "KeyError: 0"
  | _ => .error "TypeError: object is not subscriptable"

/-- Embeds `list(d.values())`: `AttributeError` when not a dict. -/
def pyValues (j : Json) : Except String (List Json) :=
  match j with
  | .obj fs => .ok (fs.map (fun kv => kv.2))
  | _ => .error "AttributeError: object has no attribute values"

/-- Embeds `list(d.keys())`: `AttributeError` when not a dict. -/
def pyKeys (j : Json) : Except String (List Json) :=
  match j with
  | .obj fs => .ok (fs.map (fun kv => Json.str kv.1))
  | _ => .error "AttributeError: object has no attribute keys"

/-- Python truthiness of a JSON value (`if not records:`). -/
def Json.falsy : Json → Bool
  | .null => true
  | .bool b => !b
  | .num n => n == 0
  | .str s => s.isEmpty
  | .arr xs => xs.isEmpty
  | .obj fs => fs.isEmpty

/-- Embeds `for x in j`: the items iteration visits — list elements, the
characters of a string, the keys of a dict; `TypeError` otherwise. -/
def pyIter : Json → Except String (List Json)
  | .arr xs => .ok xs
  | .str s => .ok (s.data.map (fun c => Json.str (String.mk [c])))
  | .obj fs => .ok (fs.map (fun kv => Json.str kv.1))
  | _ => .error "TypeError: object is not iterable"

/-- Embeds Python `j == s` for a string `s` on the right: only a string
with the same characters compares equal; any other type is unequal, never
an error. -/
def jsonEqStr (j : Json) (s : String) : Bool :=
  match j with
  | .str t => t == s
  | _ => false

/-- The uniform Error Payload `{"error": msg}` every handler falls back
to. -/
def errObj (msg : String) : Json := .obj [("error", .str msg)]

/-- Whether a tool result is an Error Payload: a dict carrying an
`error` key. -/
def isErrorPayload : Json → Bool
  | .obj fs => (lookupStr fs "error").isSome
  | _ => false

/-- Embeds `json.dumps({"error": msg})` with Python's default separators,
for escape-free messages (every message the server builds is
escape-free). -/
def dumpsError (msg : String) : String := "\x7b\"error\": \"" ++ msg ++ "\"\x7d"

/-- Embeds `json.dumps(info, indent=2)` for the flat string-to-string dict
`get_schema` builds. -/
def dumpsIndent2Flat (fields : List (String × String)) : String :=
  if fields.isEmpty then "\x7b\x7d"
  else
    "\x7b\n" ++
      String.intercalate ",\n"
        (fields.map (fun kv => "  \"" ++ kv.1 ++ "\": \"" ++ kv.2 ++ "\"")) ++
      "\n\x7d"

/-- Rendering of one CSV cell in `DataFrame.write_json` output. -/
def Cell.render : Cell → String
  | .null => "null"
  | .num n => toString n
  | .str s => "\"" ++ s ++ "\""

/-- One row of `DataFrame.write_json` output: an object pairing column
names with the row's cells. -/
def rowRender (cols : List String) (row : List Cell) : String :=
  "\x7b" ++
    String.intercalate ","
      ((cols.zip row).map (fun kv => "\"" ++ kv.1 ++ "\":" ++ Cell.render kv.2)) ++
    "\x7d"

/-- Embeds `df.write_json()`: the row-oriented JSON array polars writes. -/
def DataFrame.writeJson (df : DataFrame) : String :=
  "[" ++ String.intercalate "," (df.rows.map (rowRender df.columns)) ++ "]"

/-- The cell value at column position `i` of a row (rows of a parsed frame
are aligned with the column list). -/
def cellAt (row : List Cell) (i : Nat) : Cell := row.getD i Cell.null

/-- Embeds Python `s.upper()` character by character (the country codes
the server upper-cases are ASCII). -/
def pyUpper (s : String) : String := String.mk (s.data.map Char.toUpper)

/-- Embeds the polars comparison `pl.col(c) == target` for a string
`target` on one cell: equal exactly when the cell is that string. -/
def cellEqStr (c : Cell) (s : String) : Bool :=
  match c with
  | .str t => t == s
  | _ => false

/-- Whether a cell holds a string — the regime in which the embedded
polars comparison is faithful (comparing a non-string column to a string
would raise inside polars instead). -/
def isStrCell : Cell → Bool
  | .str _ => true
  | _ => false

/-- The rows of `df` whose cell in column position `i` equals the string
`target` — the rows `df.filter(pl.col(col) == target)` keeps. -/
def matchedRows (df : DataFrame) (i : Nat) (target : String) : List (List Cell) :=
  df.rows.filter (fun r => cellEqStr (cellAt r i) target)

/-- Embeds `df.filter(pl.col(col) == target)`: raises (a polars
`ColumnNotFoundError`, caught by the generic handler) when the column is
absent. -/
def DataFrame.filterColEq (df : DataFrame) (col target : String) : Except String DataFrame :=
  match df.columns.findIdx? (fun x => x == col) with
  | none => .error ("unable to find column \"" ++ col ++ "\"")
  | some i => .ok ⟨df.columns, df.dtypes, matchedRows df i target⟩

/-- Embeds `df.select(cols)`: projects the named columns, raising when one
is absent. -/
def DataFrame.select (df : DataFrame) (cols : List String) : Except String DataFrame :=
  match cols.mapM (fun c => df.columns.findIdx? (fun x => x == c)) with
  | none => .error ("unable to find column: " ++ String.intercalate ", " cols)
  | some idxs =>
    .ok ⟨cols, idxs.map (fun i => df.dtypes.getD i ""),
      df.rows.map (fun r => idxs.map (fun i => cellAt r i))⟩

/-- Duplicate-row removal keeping first occurrences: the rows of ONE
possible output of `df.unique()`.  Polars `unique()` with its default
`maintain_order=False` (server.py line 110) does not fix the row order, so
a single function cannot be a faithful semantics of the call; the faithful
contract is the relation `uniqueResult` below, and this function realizes
one arbitrary permissible order so that order-independent facts (such as
the totality of the handler) can be stated over a concrete run. -/
def dedupRowsGo (seen : List (List Cell)) : List (List Cell) → List (List Cell)
  | [] => []
  | r :: rest =>
    if r ∈ seen then dedupRowsGo seen rest
    else r :: dedupRowsGo (r :: seen) rest

/-- One possible result of `df.unique()`: the distinct rows in
first-occurrence order.  See `uniqueResult` for the full contract of the
call, which leaves the order unspecified. -/
def DataFrame.unique (df : DataFrame) : DataFrame :=
  ⟨df.columns, df.dtypes, dedupRowsGo [] df.rows⟩

/-- The documented contract of `df.unique()` (server.py line 110, default
`maintain_order=False`): an output frame is any frame with the same
columns and dtypes whose rows are exactly the distinct rows of the input,
each once, in an order the library does not specify and that may differ
between runs. -/
def uniqueResult (df out : DataFrame) : Prop :=
  out.columns = df.columns ∧ out.dtypes = df.dtypes ∧ out.rows.Nodup ∧
  (∀ r ∈ out.rows, r ∈ df.rows) ∧ (∀ r ∈ df.rows, r ∈ out.rows)

/-- Embeds the resource `get_schema` (server.py lines 87-96).  The loader
failure is NOT caught here: it propagates as `Except.error`. -/
def get_schema (w : World) : Except String String :=
  match _load_data w with
  | .error e => .error e
  | .ok df => .ok (dumpsIndent2Flat (df.columns.zip df.dtypes))

/-- Embeds one run of the resource `get_countries` (server.py lines
99-117): selects the two name columns, deduplicates, serializes; every
failure is caught and returned as an Error Payload string, so the result
is always `ok`.  Because `unique()` does not fix the row order, this
function stands for one arbitrary run (first-occurrence order); the set
of all possible runs is `get_countries_runs`, and this run is proved to
belong to it. -/
def get_countries (w : World) : Except String String :=
  match _load_data w with
  | .error e => .ok (dumpsError e)
  | .ok df =>
    match df.select ["countryiso3code", "country"] with
    | .error e => .ok (dumpsError ("Failed to load countries: " ++ e))
    | .ok sel => .ok sel.unique.writeJson

/-- The faithful, relational semantics of the resource `get_countries`
(server.py lines 99-117): `get_countries_runs w r` holds exactly when one
run of the handler in state `w` may return `r`.  The error branches are
deterministic; the success branch serializes any frame `unique()` may
produce, whose row order is unspecified. -/
def get_countries_runs (w : World) (r : Except String String) : Prop :=
  match _load_data w with
  | .error e => r = .ok (dumpsError e)
  | .ok df =>
    match df.select ["countryiso3code", "country"] with
    | .error e => r = .ok (dumpsError ("Failed to load countries: " ++ e))
    | .ok sel => ∃ u : DataFrame, uniqueResult sel u ∧ r = .ok u.writeJson

/-- Embeds the resource `get_country_indicators` (server.py lines
120-144): filters the frame on the upper-cased code, returns a not-found
Error Payload for an empty match, the serialized rows otherwise; every
failure is caught, so the result is always `ok`. -/
def get_country_indicators (w : World) (country_code : String) : Except String String :=
  match _load_data w with
  | .error e => .ok (dumpsError e)
  | .ok df =>
    match df.filterColEq "countryiso3code" (pyUpper country_code) with
    | .error e => .ok (dumpsError ("Failed to fetch indicators: " ++ e))
    | .ok filtered =>
      if filtered.rows.isEmpty then
        .ok (dumpsError ("Country code '" ++ country_code ++ "' not found in local dataset"))
      else .ok filtered.writeJson

/-- The outcome of the one outbound httpx call a tool makes, by the
exception classes the source catches: a parsed JSON body on HTTP success,
or `httpx.HTTPStatusError` (from `raise_for_status`), or
`httpx.TimeoutException`, or another `httpx.RequestError`, or any other
unexpected exception. -/
inductive FetchResult where
  | success (body : Json)
  | httpStatusError (status : Nat) (msg : String)
  | timeout
  | requestError (msg : String)
  | unexpected (msg : String)

/-- Embeds the dict literal of `get_country_info` (server.py lines
166-175) applied to the first upstream match, with each step that Python
evaluates, in source order; a `KeyError`/`IndexError`/`AttributeError`
raised by any step surfaces as the `Except` error the caller's catch-all
converts. -/
def buildCountryInfo (data : Json) : Except String Json :=
  match pySubscript data "name" with
  | .error e => .error e
  | .ok nameField =>
  match pySubscript nameField "common" with
  | .error e => .error e
  | .ok nameCommon =>
  match pyDictGet data "capital" (.arr [.str "N/A"]) with
  | .error e => .error e
  | .ok capitalField =>
  match pyIndex0 capitalField with
  | .error e => .error e
  | .ok capital =>
  match pyDictGet data "region" (.str "N/A") with
  | .error e => .error e
  | .ok region =>
  match pyDictGet data "subregion" (.str "N/A") with
  | .error e => .error e
  | .ok subregion =>
  match pyDictGet data "languages" (.obj []) with
  | .error e => .error e
  | .ok languagesField =>
  match pyValues languagesField with
  | .error e => .error e
  | .ok languages =>
  match pyDictGet data "currencies" (.obj []) with
  | .error e => .error e
  | .ok currenciesField =>
  match pyKeys currenciesField with
  | .error e => .error e
  | .ok currencies =>
  match pyDictGet data "population" (.num 0) with
  | .error e => .error e
  | .ok population =>
  match pyDictGet data "flag" (.str "") with
  | .error e => .error e
  | .ok flag =>
    .ok (.obj [("name", nameCommon), ("capital", capital), ("region", region),
      ("subregion", subregion), ("languages", .arr languages),
      ("currencies", .arr currencies), ("population", population), ("flag", flag)])

/-- Embeds the body extraction of `_fetch_rest_countries` (server.py line
60, `response.json()[0]`) followed by the reshape: everything the `try`
block of `get_country_info` runs after a successful HTTP call. -/
def restCountriesBuild (body : Json) : Except String Json :=
  match pyIndex0 body with
  | .error e => .error e
  | .ok data => buildCountryInfo data

/-- Embeds the tool `get_country_info` (server.py lines 151-190): reshape
the first upstream match on success, and map each caught exception class
to its Error Payload.  The function is total: the source catches every
exception, so nothing escapes the tool. -/
def get_country_info (outcome : FetchResult) (country_code : String) : Json :=
  match outcome with
  | .success body =>
    match restCountriesBuild body with
    | .ok d => d
    | .error e => errObj ("Unexpected error: " ++ e)
  | .httpStatusError status msg =>
    if status == 404 then errObj ("Country code '" ++ country_code ++ "' not found")
    else errObj ("API error (" ++ toString status ++ "): " ++ msg)
  | .timeout => errObj "Request timed out, please try again"
  | .requestError msg => errObj ("Network error: " ++ msg)
  | .unexpected msg => errObj ("Unexpected error: " ++ msg)

/-- Embeds the envelope handling of `_fetch_world_bank_indicator`
(server.py lines 77-80): `if len(data) < 2 or not data[1]: return []`,
otherwise `return data[1]` — including Python's behaviour of `len` and
`[1]` on each possible type of the parsed body. -/
def wbExtractRecords : Json → Except String Json
  | .arr [] => .ok (.arr [])
  | .arr [_] => .ok (.arr [])
  | .arr (_ :: d :: _) => if d.falsy then .ok (.arr []) else .ok d
  | .str s =>
    match s.data with
    | [] => .ok (.arr [])
    | [_] => .ok (.arr [])
    | _ :: c :: _ => .ok (.str (String.mk [c]))
  | .obj fs => if fs.length < 2 then .ok (.arr []) else .error "KeyError: 1"
  | _ => .error "TypeError: object has no len"

/-- Embeds the Indicator Observation dict literal (server.py lines
225-232) built from a matched record, in source evaluation order. -/
def mkObservation (r : Json) (code ind : String) (year : Int) : Except String Json :=
  match pyDictGet r "country" (.obj []) with
  | .error e => .error e
  | .ok countryField =>
  match pyDictGet countryField "value" (.str "N/A") with
  | .error e => .error e
  | .ok countryName =>
  match pyDictGet r "indicator" (.obj []) with
  | .error e => .error e
  | .ok indicatorField =>
  match pyDictGet indicatorField "value" (.str "N/A") with
  | .error e => .error e
  | .ok indicatorName =>
  match pyDictGet r "value" .null with
  | .error e => .error e
  | .ok value =>
    .ok (.obj [("country", .str code), ("country_name", countryName),
      ("indicator", .str ind), ("indicator_name", indicatorName),
      ("year", .num year), ("value", value)])

/-- Embeds the record loop of `get_live_indicator` (server.py lines
223-232): linear scan, stop at the first record whose `date` compares
equal to `str(year)`. -/
def scanRecords (code ind : String) (year : Int) : List Json → Except String (Option Json)
  | [] => .ok none
  | r :: rest =>
    match pyDictGet r "date" Json.null with
    | .error e => .error e
    | .ok d =>
      if jsonEqStr d (toString year) then
        match mkObservation r code ind year with
        | .error e => .error e
        | .ok obs => .ok (some obs)
      else scanRecords code ind year rest

/-- Everything the `try` block of `get_live_indicator` runs after a
successful HTTP call (server.py lines 218-234): envelope extraction, the
emptiness test, the scan, and the two distinct absence payloads. -/
def wbRun (body : Json) (code ind : String) (year : Int) : Except String Json :=
  match wbExtractRecords body with
  | .error e => .error e
  | .ok records =>
    if records.falsy then
      .ok (errObj ("No data available for " ++ code ++ " / " ++ ind ++ " in " ++ toString year))
    else
      match pyIter records with
      | .error e => .error e
      | .ok items =>
        match scanRecords code ind year items with
        | .error e => .error e
        | .ok (some obs) => .ok obs
        | .ok none =>
          .ok (errObj ("No data found for " ++ code ++ " / " ++ ind ++ " in " ++ toString year))

/-- Embeds the tool `get_live_indicator` (server.py lines 193-249).
Total for the same reason as `get_country_info`. -/
def get_live_indicator (outcome : FetchResult) (country_code indicator : String) (year : Int) : Json :=
  match outcome with
  | .success body =>
    match wbRun body country_code indicator year with
    | .ok j => j
    | .error e => errObj ("Unexpected error: " ++ e)
  | .httpStatusError status msg =>
    if status == 404 then
      errObj ("Country '" ++ country_code ++ "' or indicator '" ++ indicator ++ "' not found")
    else errObj ("API error (" ++ toString status ++ "): " ++ msg)
  | .timeout => errObj "Request timed out, please try again"
  | .requestError msg => errObj ("Network error: " ++ msg)
  | .unexpected msg => errObj ("Unexpected error: " ++ msg)

/-- The loop body of `compare_countries` for one code (server.py lines
278-289): `liveIndicator` is the act of invoking `get_live_indicator` for
that code, whose `error` case models that invocation raising; the raise is
caught and converted to the partial record. -/
def compareItem (liveIndicator : String → Except String Json)
    (indicator : String) (year : Int) (code : String) : Json :=
  match liveIndicator code with
  | .ok result => result
  | .error e =>
    .obj [("country", .str code), ("indicator", .str indicator),
      ("year", .num year), ("value", .null), ("error", .str e)]

/-- Embeds the tool `compare_countries` (server.py lines 252-290): the
empty-input short circuit, then one sequential `compareItem` per code in
input order. -/
def compare_countries (liveIndicator : String → Except String Json)
    (country_codes : List String) (indicator : String) (year : Int) : List Json :=
  if country_codes.isEmpty then [errObj "No country codes provided"]
  else country_codes.map (compareItem liveIndicator indicator year)

/-- A concrete per-country lookup behaviour used to instantiate theorems
about `compare_countries`: it raises on the code "XYZ" and returns an
ordinary payload on every other code. -/
def probeLookup : String → Except String Json :=
  fun c => if c == "XYZ" then .error "boom" else .ok (errObj "No data")

/-- String prefix test on the underlying character lists. -/
def strStarts (p s : String) : Bool := p.data.isPrefixOf s.data

/-- The five failure kinds of the tools' failure taxonomy, recognizable
from the Error Payload message alone. -/
inductive ErrKind where
  | notFound
  | apiError
  | timedOut
  | networkError
  | unexpectedError
deriving DecidableEq

/-- Classifies an error message into the failure taxonomy by its fixed
leading text. -/
def msgKind (s : String) : Option ErrKind :=
  if strStarts "API error (" s then some .apiError
  else if strStarts "Request timed out" s then some .timedOut
  else if strStarts "Network error: " s then some .networkError
  else if strStarts "Unexpected error: " s then some .unexpectedError
  else if strStarts "Country" s then some .notFound
  else none

/-- Classifies a tool result: the failure kind of its Error Payload
message, `none` for anything that is not a classified Error Payload. -/
def payloadKind (j : Json) : Option ErrKind :=
  match j with
  | .obj fs =>
    match lookupStr fs "error" with
    | some (.str m) => msgKind m
    | _ => none
  | _ => none

/-! Helper lemmas shared by the claim theorems. -/

/-- An Error Payload built by `errObj` is recognized as one. -/
theorem isErrorPayload_errObj (m : String) : isErrorPayload (errObj m) = true := rfl

/-- A cell compares equal to a string exactly when it is that string. -/
theorem cellEqStr_iff (c : Cell) (s : String) : cellEqStr c s = true ↔ c = .str s := by
  cases c <;> simp [cellEqStr]

/-- CLAIM C2: for the empty input list, `compare_countries` returns exactly
the single-element list holding the payload with message "No country codes
provided"; this holds for every behaviour of the per-country lookup, so the
lookup is never consulted. -/
theorem compare_countries_empty_input (liveIndicator : String → Except String Json)
    (indicator : String) (year : Int) :
    compare_countries liveIndicator [] indicator year =
      [Json.obj [("error", Json.str "No country codes provided")]] := rfl

/-- CLAIM C1: for a non-empty code list the result of `compare_countries`
has the input's length, its entry at each position is `compareItem` of the
code at that position (input order preserved), and a fault raised while
handling one code is converted into the partial record carrying `country`,
`indicator`, `year`, `value: null` and an `error` field — so no fault
aborts the remaining codes. -/
theorem compare_countries_per_item_isolation
    (liveIndicator : String → Except String Json)
    (country_codes : List String) (indicator : String) (year : Int)
    (hne : country_codes ≠ []) :
    (compare_countries liveIndicator country_codes indicator year).length =
        country_codes.length ∧
    (∀ i : Nat, (compare_countries liveIndicator country_codes indicator year)[i]? =
        (country_codes[i]?).map (compareItem liveIndicator indicator year)) ∧
    (∀ c e, liveIndicator c = .error e →
        compareItem liveIndicator indicator year c =
          Json.obj [("country", Json.str c), ("indicator", Json.str indicator),
            ("year", Json.num year), ("value", Json.null), ("error", Json.str e)]) := by
  have hempty : country_codes.isEmpty = false := by
    cases country_codes with
    | nil => exact absurd rfl hne
    | cons a l => rfl
  refine ⟨?_, ?_, ?_⟩
  · simp [compare_countries, hempty]
  · intro i
    simp [compare_countries, hempty, List.getElem?_map]
  · intro c e hce
    simp [compareItem, hce]

/-- Witness for C1 at a concrete two-code input whose second code makes the
lookup raise. -/
theorem compare_countries_per_item_isolation_witness :
    (["USA", "XYZ"] : List String) ≠ [] ∧
    ((compare_countries probeLookup ["USA", "XYZ"] "NY.GDP.PCAP.CD" 2022).length =
        (["USA", "XYZ"] : List String).length ∧
      (∀ i : Nat, (compare_countries probeLookup ["USA", "XYZ"] "NY.GDP.PCAP.CD" 2022)[i]? =
        ((["USA", "XYZ"] : List String)[i]?).map (compareItem probeLookup "NY.GDP.PCAP.CD" 2022)) ∧
      (∀ c e, probeLookup c = .error e →
        compareItem probeLookup "NY.GDP.PCAP.CD" 2022 c =
          Json.obj [("country", Json.str c), ("indicator", Json.str "NY.GDP.PCAP.CD"),
            ("year", Json.num 2022), ("value", Json.null), ("error", Json.str e)])) :=
  ⟨by simp, compare_countries_per_item_isolation probeLookup ["USA", "XYZ"]
    "NY.GDP.PCAP.CD" 2022 (by simp)⟩

/-- Membership in the first-occurrence dedup: exactly the elements of the
input that are not in the accumulator of already-emitted rows. -/
theorem mem_dedupRowsGo (l : List (List Cell)) :
    ∀ (seen : List (List Cell)) (x : List Cell),
      x ∈ dedupRowsGo seen l ↔ x ∈ l ∧ x ∉ seen := by
  induction l with
  | nil =>
    intro seen x
    simp [dedupRowsGo]
  | cons r rest ih =>
    intro seen x
    by_cases hseen : r ∈ seen
    · simp only [dedupRowsGo, if_pos hseen]
      rw [ih seen x]
      constructor
      · rintro ⟨hx, hns⟩
        exact ⟨List.mem_cons_of_mem _ hx, hns⟩
      · rintro ⟨hx, hns⟩
        rcases List.mem_cons.mp hx with h | h
        · subst h
          exact absurd hseen hns
        · exact ⟨h, hns⟩
    · simp only [dedupRowsGo, if_neg hseen]
      constructor
      · intro hx
        rcases List.mem_cons.mp hx with h | h
        · subst h
          exact ⟨List.mem_cons_self _ _, hseen⟩
        · obtain ⟨hx2, hns2⟩ := (ih _ x).mp h
          exact ⟨List.mem_cons_of_mem _ hx2,
            fun hc => hns2 (List.mem_cons_of_mem _ hc)⟩
      · rintro ⟨hx, hns⟩
        rcases List.mem_cons.mp hx with h | h
        · subst h
          exact List.mem_cons_self _ _
        · by_cases hxr : x = r
          · subst hxr
            exact List.mem_cons_self _ _
          · refine List.mem_cons_of_mem _ ((ih _ x).mpr ⟨h, ?_⟩)
            intro hc
            rcases List.mem_cons.mp hc with h2 | h2
            · exact hxr h2
            · exact hns h2

/-- The first-occurrence dedup emits no row twice. -/
theorem nodup_dedupRowsGo (l : List (List Cell)) :
    ∀ seen : List (List Cell), (dedupRowsGo seen l).Nodup := by
  induction l with
  | nil =>
    intro seen
    simp [dedupRowsGo]
  | cons r rest ih =>
    intro seen
    by_cases hseen : r ∈ seen
    · simp only [dedupRowsGo, if_pos hseen]
      exact ih seen
    · simp only [dedupRowsGo, if_neg hseen]
      refine List.nodup_cons.mpr ⟨?_, ih (r :: seen)⟩
      intro hc
      exact ((mem_dedupRowsGo rest (r :: seen) r).mp hc).2 (List.mem_cons_self _ _)

/-- Counterexample to C3 as stated: on one fixed file content the
countries resource has two permissible runs — the two orders of the
duplicate-free row pair, both allowed by the unique() contract — whose
JSON output differs byte-wise.  Repeated calls are therefore not
guaranteed byte-identical for the countries resource. -/
theorem countries_byte_identity_refuted :
    get_countries_runs
      (World.mk (some ⟨["countryiso3code", "country"], ["str", "str"],
        [[Cell.str "USA", Cell.str "United States"], [Cell.str "CHN", Cell.str "China"]]⟩) 0)
      (.ok (DataFrame.writeJson ⟨["countryiso3code", "country"], ["str", "str"],
        [[Cell.str "USA", Cell.str "United States"], [Cell.str "CHN", Cell.str "China"]]⟩)) ∧
    get_countries_runs
      (World.mk (some ⟨["countryiso3code", "country"], ["str", "str"],
        [[Cell.str "USA", Cell.str "United States"], [Cell.str "CHN", Cell.str "China"]]⟩) 0)
      (.ok (DataFrame.writeJson ⟨["countryiso3code", "country"], ["str", "str"],
        [[Cell.str "CHN", Cell.str "China"], [Cell.str "USA", Cell.str "United States"]]⟩)) ∧
    DataFrame.writeJson ⟨["countryiso3code", "country"], ["str", "str"],
        [[Cell.str "USA", Cell.str "United States"], [Cell.str "CHN", Cell.str "China"]]⟩ ≠
      DataFrame.writeJson ⟨["countryiso3code", "country"], ["str", "str"],
        [[Cell.str "CHN", Cell.str "China"], [Cell.str "USA", Cell.str "United States"]]⟩ := by
  refine ⟨?_, ?_, by decide⟩
  · exact ⟨⟨["countryiso3code", "country"], ["str", "str"],
      [[Cell.str "USA", Cell.str "United States"], [Cell.str "CHN", Cell.str "China"]]⟩,
      ⟨by decide, by decide, by decide, by decide, by decide⟩, rfl⟩
  · exact ⟨⟨["countryiso3code", "country"], ["str", "str"],
      [[Cell.str "CHN", Cell.str "China"], [Cell.str "USA", Cell.str "United States"]]⟩,
      ⟨by decide, by decide, by decide, by decide, by decide⟩, rfl⟩

/-- CLAIM C3, amended: the schema resource is a deterministic function of
the file content — byte-identical output across calls that agree on the
file; the countries resource is deterministic only up to the row order
that unique() leaves unspecified: the fixed-order embedding is one of its
permissible runs, and any two permissible runs on the same file content
either coincide or serialize frames with the same columns, the same
dtypes and the same rows up to permutation. -/
theorem schema_deterministic_countries_same_rows :
    (∀ w₁ w₂ : World, w₁.file = w₂.file → get_schema w₁ = get_schema w₂) ∧
    (∀ w : World, get_countries_runs w (get_countries w)) ∧
    (∀ (w₁ w₂ : World) (r₁ r₂ : Except String String), w₁.file = w₂.file →
      get_countries_runs w₁ r₁ → get_countries_runs w₂ r₂ →
      r₁ = r₂ ∨ ∃ u₁ u₂ : DataFrame, r₁ = .ok u₁.writeJson ∧ r₂ = .ok u₂.writeJson ∧
        u₁.columns = u₂.columns ∧ u₁.dtypes = u₂.dtypes ∧ u₁.rows.Perm u₂.rows) := by
  refine ⟨?_, ?_, ?_⟩
  · intro w₁ w₂ hfile
    simp [get_schema, _load_data, hfile]
  · intro w
    rcases h : _load_data w with e | df
    · simp [get_countries_runs, get_countries, h]
    · rcases h2 : df.select ["countryiso3code", "country"] with e | sel
      · simp [get_countries_runs, get_countries, h, h2]
      · simp only [get_countries_runs, get_countries, h, h2]
        refine ⟨sel.unique, ⟨rfl, rfl, nodup_dedupRowsGo sel.rows [], ?_, ?_⟩, rfl⟩
        · intro r hr
          exact ((mem_dedupRowsGo sel.rows [] r).mp hr).1
        · intro r hr
          exact (mem_dedupRowsGo sel.rows [] r).mpr ⟨hr, by simp⟩
  · intro w₁ w₂ r₁ r₂ hfile hr₁ hr₂
    have hload : _load_data w₁ = _load_data w₂ := by simp [_load_data, hfile]
    rcases h : _load_data w₂ with e | df
    · simp only [get_countries_runs, hload, h] at hr₁
      simp only [get_countries_runs, h] at hr₂
      exact Or.inl (hr₁.trans hr₂.symm)
    · simp only [get_countries_runs, hload, h] at hr₁
      simp only [get_countries_runs, h] at hr₂
      rcases h2 : df.select ["countryiso3code", "country"] with e | sel
      · simp only [h2] at hr₁ hr₂
        exact Or.inl (hr₁.trans hr₂.symm)
      · simp only [h2] at hr₁ hr₂
        obtain ⟨u₁, ⟨hc₁, hd₁, hn₁, hsub₁, hsup₁⟩, hq₁⟩ := hr₁
        obtain ⟨u₂, ⟨hc₂, hd₂, hn₂, hsub₂, hsup₂⟩, hq₂⟩ := hr₂
        refine Or.inr ⟨u₁, u₂, hq₁, hq₂, hc₁.trans hc₂.symm, hd₁.trans hd₂.symm, ?_⟩
        refine (List.perm_ext_iff_of_nodup hn₁ hn₂).mpr fun a => ?_
        exact ⟨fun ha => hsup₂ a (hsub₁ a ha), fun ha => hsup₁ a (hsub₂ a ha)⟩

/-- Witness for the amended C3 at a concrete one-row store and two ambient
states that agree on the file. -/
theorem schema_deterministic_countries_same_rows_witness :
    (World.mk (some ⟨["countryiso3code", "country"], ["str", "str"],
        [[Cell.str "USA", Cell.str "United States"]]⟩) 0).file =
      (World.mk (some ⟨["countryiso3code", "country"], ["str", "str"],
        [[Cell.str "USA", Cell.str "United States"]]⟩) 1).file ∧
    (get_schema (World.mk (some ⟨["countryiso3code", "country"], ["str", "str"],
        [[Cell.str "USA", Cell.str "United States"]]⟩) 0) =
      get_schema (World.mk (some ⟨["countryiso3code", "country"], ["str", "str"],
        [[Cell.str "USA", Cell.str "United States"]]⟩) 1) ∧
      get_countries_runs (World.mk (some ⟨["countryiso3code", "country"], ["str", "str"],
          [[Cell.str "USA", Cell.str "United States"]]⟩) 0)
        (get_countries (World.mk (some ⟨["countryiso3code", "country"], ["str", "str"],
          [[Cell.str "USA", Cell.str "United States"]]⟩) 0)) ∧
      (get_countries (World.mk (some ⟨["countryiso3code", "country"], ["str", "str"],
          [[Cell.str "USA", Cell.str "United States"]]⟩) 0) =
        get_countries (World.mk (some ⟨["countryiso3code", "country"], ["str", "str"],
          [[Cell.str "USA", Cell.str "United States"]]⟩) 1) ∨
        ∃ u₁ u₂ : DataFrame,
          get_countries (World.mk (some ⟨["countryiso3code", "country"], ["str", "str"],
            [[Cell.str "USA", Cell.str "United States"]]⟩) 0) = .ok u₁.writeJson ∧
          get_countries (World.mk (some ⟨["countryiso3code", "country"], ["str", "str"],
            [[Cell.str "USA", Cell.str "United States"]]⟩) 1) = .ok u₂.writeJson ∧
          u₁.columns = u₂.columns ∧ u₁.dtypes = u₂.dtypes ∧ u₁.rows.Perm u₂.rows)) :=
  ⟨rfl,
    schema_deterministic_countries_same_rows.1 _ _ rfl,
    schema_deterministic_countries_same_rows.2.1 _,
    schema_deterministic_countries_same_rows.2.2 _ _ _ _ rfl
      (schema_deterministic_countries_same_rows.2.1 _)
      (schema_deterministic_countries_same_rows.2.1 _)⟩

/-- The countries resource catches every loader failure: its result is
always `ok` (an Error Payload string at worst), never a raised fault. -/
theorem countries_resource_total (w : World) : (get_countries w).isOk = true := by
  rcases h : _load_data w with e | df
  · simp [get_countries, h, Except.isOk, Except.toBool]
  · rcases h2 : df.select ["countryiso3code", "country"] with e | sel <;>
      simp [get_countries, h, h2, Except.isOk, Except.toBool]

/-- The indicators resource catches every loader and filter failure: its
result is always `ok`, never a raised fault. -/
theorem indicators_resource_total (w : World) (c : String) :
    (get_country_indicators w c).isOk = true := by
  rcases h : _load_data w with e | df
  · simp [get_country_indicators, h, Except.isOk, Except.toBool]
  · rcases h2 : df.filterColEq "countryiso3code" (pyUpper c) with e | filtered
    · simp [get_country_indicators, h, h2, Except.isOk, Except.toBool]
    · cases hb : filtered.rows.isEmpty <;>
        simp [get_country_indicators, h, h2, hb, Except.isOk, Except.toBool]

/-- CLAIM C9: the schema resource is the only operation that lets a
missing data file propagate as an unhandled fault (an `error` result of
the embedding); the other resources always return `ok`, and both tools
convert every outbound-call failure — and `compare_countries` every fault
of its per-country invocation — into an Error Payload instead of
throwing. -/
theorem schema_only_unhandled_fault :
    (∀ n : Nat, get_schema ⟨none, n⟩ = .error ("Data file not found: " ++ DATA_FILE)) ∧
    (∀ w : World, (get_countries w).isOk = true) ∧
    (∀ (w : World) (c : String), (get_country_indicators w c).isOk = true) ∧
    (∀ s m c, isErrorPayload (get_country_info (.httpStatusError s m) c) = true) ∧
    (∀ c, isErrorPayload (get_country_info .timeout c) = true) ∧
    (∀ m c, isErrorPayload (get_country_info (.requestError m) c) = true) ∧
    (∀ m c, isErrorPayload (get_country_info (.unexpected m) c) = true) ∧
    (∀ s m c i y, isErrorPayload (get_live_indicator (.httpStatusError s m) c i y) = true) ∧
    (∀ c i y, isErrorPayload (get_live_indicator .timeout c i y) = true) ∧
    (∀ m c i y, isErrorPayload (get_live_indicator (.requestError m) c i y) = true) ∧
    (∀ m c i y, isErrorPayload (get_live_indicator (.unexpected m) c i y) = true) ∧
    (∀ (liveIndicator : String → Except String Json) ind yr c e,
        liveIndicator c = .error e →
        isErrorPayload (compareItem liveIndicator ind yr c) = true) := by
  refine ⟨fun n => rfl, countries_resource_total, indicators_resource_total,
    ?_, fun c => rfl, fun m c => rfl, fun m c => rfl, ?_, fun c i y => rfl,
    fun m c i y => rfl, fun m c i y => rfl, ?_⟩
  · intro s m c
    simp only [get_country_info]
    split <;> exact isErrorPayload_errObj _
  · intro s m c i y
    simp only [get_live_indicator]
    split <;> exact isErrorPayload_errObj _
  · intro liveIndicator ind yr c e h
    simp [compareItem, h, isErrorPayload, lookupStr]

/-- Witness for C9's per-country isolation clause at the concrete raising
lookup. -/
theorem schema_only_unhandled_fault_witness :
    probeLookup "XYZ" = .error "boom" ∧
    isErrorPayload (compareItem probeLookup "NY.GDP.PCAP.CD" 2022 "XYZ") = true :=
  ⟨rfl, schema_only_unhandled_fault.2.2.2.2.2.2.2.2.2.2.2
    probeLookup "NY.GDP.PCAP.CD" 2022 "XYZ" "boom" rfl⟩

/-- A character list is a prefix of itself extended by anything. -/
theorem isPrefixOf_self_append (l t : List Char) : l.isPrefixOf (l ++ t) = true := by
  induction l with
  | nil => simp [List.isPrefixOf]
  | cons a as ih => simp [List.isPrefixOf, ih]

/-- When a candidate prefix disagrees with the fixed front of a list within
the shared length, it is no prefix of any extension of that front. -/
theorem isPrefixOf_append_eq_false (p f t : List Char)
    (h : p.take f.length ≠ f.take p.length) : p.isPrefixOf (f ++ t) = false := by
  induction p generalizing f with
  | nil => simp at h
  | cons a as ih =>
    cases f with
    | nil => simp at h
    | cons b bs =>
      by_cases hab : a = b
      · subst hab
        simp only [List.length_cons, List.take_succ_cons, ne_eq, List.cons.injEq,
          true_and] at h
        simp [List.isPrefixOf, ih bs h]
      · simp [List.isPrefixOf, hab]

/-- A string starts with itself extended by anything. -/
theorem strStarts_append_self (p t : String) : strStarts p (p ++ t) = true := by
  unfold strStarts
  rw [String.data_append]
  exact isPrefixOf_self_append p.data t.data

/-- A string whose fixed front disagrees with a candidate prefix does not
start with that candidate, whatever follows the front. -/
theorem strStarts_append_false (p f t : String)
    (h : p.data.take f.data.length ≠ f.data.take p.data.length) :
    strStarts p (f ++ t) = false := by
  unfold strStarts
  rw [String.data_append]
  exact isPrefixOf_append_eq_false p.data f.data t.data h

/-- The "API error (<status>): <detail>" messages classify as `apiError`. -/
theorem msgKind_apiError (s e : String) :
    msgKind ("API error (" ++ s ++ "): " ++ e) = some .apiError := by
  have h1 : strStarts "API error (" ("API error (" ++ s ++ "): " ++ e) = true := by
    rw [String.append_assoc, String.append_assoc]
    exact strStarts_append_self _ _
  simp [msgKind, h1]

/-- The timeout message classifies as `timedOut`. -/
theorem msgKind_timeout :
    msgKind "Request timed out, please try again" = some .timedOut := by decide

/-- The "Network error: <detail>" messages classify as `networkError`. -/
theorem msgKind_network (e : String) :
    msgKind ("Network error: " ++ e) = some .networkError := by
  have h1 : strStarts "API error (" ("Network error: " ++ e) = false :=
    strStarts_append_false _ _ _ (by decide)
  have h2 : strStarts "Request timed out" ("Network error: " ++ e) = false :=
    strStarts_append_false _ _ _ (by decide)
  have h3 : strStarts "Network error: " ("Network error: " ++ e) = true :=
    strStarts_append_self _ _
  simp [msgKind, h1, h2, h3]

/-- The "Unexpected error: <detail>" messages classify as
`unexpectedError`. -/
theorem msgKind_unexpected (e : String) :
    msgKind ("Unexpected error: " ++ e) = some .unexpectedError := by
  have h1 : strStarts "API error (" ("Unexpected error: " ++ e) = false :=
    strStarts_append_false _ _ _ (by decide)
  have h2 : strStarts "Request timed out" ("Unexpected error: " ++ e) = false :=
    strStarts_append_false _ _ _ (by decide)
  have h3 : strStarts "Network error: " ("Unexpected error: " ++ e) = false :=
    strStarts_append_false _ _ _ (by decide)
  have h4 : strStarts "Unexpected error: " ("Unexpected error: " ++ e) = true :=
    strStarts_append_self _ _
  simp [msgKind, h1, h2, h3, h4]

/-- The 404 message of `get_country_info` classifies as `notFound`. -/
theorem msgKind_notFound_info (c : String) :
    msgKind ("Country code '" ++ c ++ "' not found") = some .notFound := by
  have hm : "Country code '" ++ c ++ "' not found" =
      "Country code '" ++ (c ++ "' not found") := String.append_assoc ..
  have h1 : strStarts "API error (" ("Country code '" ++ c ++ "' not found") = false := by
    rw [hm]; exact strStarts_append_false _ _ _ (by decide)
  have h2 : strStarts "Request timed out" ("Country code '" ++ c ++ "' not found") = false := by
    rw [hm]; exact strStarts_append_false _ _ _ (by decide)
  have h3 : strStarts "Network error: " ("Country code '" ++ c ++ "' not found") = false := by
    rw [hm]; exact strStarts_append_false _ _ _ (by decide)
  have h4 : strStarts "Unexpected error: " ("Country code '" ++ c ++ "' not found") = false := by
    rw [hm]; exact strStarts_append_false _ _ _ (by decide)
  have h5 : strStarts "Country" ("Country code '" ++ c ++ "' not found") = true := by
    rw [hm, show ("Country code '" : String) = "Country" ++ " code '" from rfl,
      String.append_assoc]
    exact strStarts_append_self _ _
  simp [msgKind, h1, h2, h3, h4, h5]

/-- The 404 message of `get_live_indicator` classifies as `notFound`. -/
theorem msgKind_notFound_live (c i : String) :
    msgKind ("Country '" ++ c ++ "' or indicator '" ++ i ++ "' not found") = some .notFound := by
  have hm : "Country '" ++ c ++ "' or indicator '" ++ i ++ "' not found" =
      "Country '" ++ (c ++ ("' or indicator '" ++ (i ++ "' not found"))) := by
    simp [String.append_assoc]
  have h1 : strStarts "API error ("
      ("Country '" ++ c ++ "' or indicator '" ++ i ++ "' not found") = false := by
    rw [hm]; exact strStarts_append_false _ _ _ (by decide)
  have h2 : strStarts "Request timed out"
      ("Country '" ++ c ++ "' or indicator '" ++ i ++ "' not found") = false := by
    rw [hm]; exact strStarts_append_false _ _ _ (by decide)
  have h3 : strStarts "Network error: "
      ("Country '" ++ c ++ "' or indicator '" ++ i ++ "' not found") = false := by
    rw [hm]; exact strStarts_append_false _ _ _ (by decide)
  have h4 : strStarts "Unexpected error: "
      ("Country '" ++ c ++ "' or indicator '" ++ i ++ "' not found") = false := by
    rw [hm]; exact strStarts_append_false _ _ _ (by decide)
  have h5 : strStarts "Country"
      ("Country '" ++ c ++ "' or indicator '" ++ i ++ "' not found") = true := by
    rw [hm, show ("Country '" : String) = "Country" ++ " '" from rfl, String.append_assoc]
    exact strStarts_append_self _ _
  simp [msgKind, h1, h2, h3, h4, h5]

/-- The failure kind of an Error Payload is the kind of its message. -/
theorem payloadKind_errObj (m : String) : payloadKind (errObj m) = msgKind m := rfl

/-- CLAIM C6: both tools map each failure of their single outbound call to
an Error Payload with the claimed message, never raising past their own
boundary (their embeddings are total functions into payloads), and the
five failure classes are pairwise distinguishable: `payloadKind` assigns
each resulting payload its own distinct `ErrKind`. -/
theorem tools_failure_taxonomy (code ind em : String) (year : Int) (status : Nat) :
    (get_country_info (.httpStatusError status em) code =
        (if status == 404 then errObj ("Country code '" ++ code ++ "' not found")
         else errObj ("API error (" ++ toString status ++ "): " ++ em)) ∧
      payloadKind (get_country_info (.httpStatusError status em) code) =
        some (if status == 404 then .notFound else .apiError)) ∧
    (get_country_info .timeout code = errObj "Request timed out, please try again" ∧
      payloadKind (get_country_info .timeout code) = some .timedOut) ∧
    (get_country_info (.requestError em) code = errObj ("Network error: " ++ em) ∧
      payloadKind (get_country_info (.requestError em) code) = some .networkError) ∧
    (get_country_info (.unexpected em) code = errObj ("Unexpected error: " ++ em) ∧
      payloadKind (get_country_info (.unexpected em) code) = some .unexpectedError) ∧
    (get_live_indicator (.httpStatusError status em) code ind year =
        (if status == 404 then
          errObj ("Country '" ++ code ++ "' or indicator '" ++ ind ++ "' not found")
         else errObj ("API error (" ++ toString status ++ "): " ++ em)) ∧
      payloadKind (get_live_indicator (.httpStatusError status em) code ind year) =
        some (if status == 404 then .notFound else .apiError)) ∧
    (get_live_indicator .timeout code ind year = errObj "Request timed out, please try again" ∧
      payloadKind (get_live_indicator .timeout code ind year) = some .timedOut) ∧
    (get_live_indicator (.requestError em) code ind year = errObj ("Network error: " ++ em) ∧
      payloadKind (get_live_indicator (.requestError em) code ind year) = some .networkError) ∧
    (get_live_indicator (.unexpected em) code ind year = errObj ("Unexpected error: " ++ em) ∧
      payloadKind (get_live_indicator (.unexpected em) code ind year) =
        some .unexpectedError) := by
  refine ⟨⟨rfl, ?_⟩, ⟨rfl, msgKind_timeout⟩, ⟨rfl, msgKind_network em⟩,
    ⟨rfl, msgKind_unexpected em⟩, ⟨rfl, ?_⟩, ⟨rfl, msgKind_timeout⟩,
    ⟨rfl, msgKind_network em⟩, ⟨rfl, msgKind_unexpected em⟩⟩
  · cases h404 : status == 404 with
    | true =>
      simp only [get_country_info, h404, if_true, payloadKind_errObj]
      exact msgKind_notFound_info code
    | false =>
      simp only [get_country_info, h404, if_false, payloadKind_errObj]
      exact msgKind_apiError (toString status) em
  · cases h404 : status == 404 with
    | true =>
      simp only [get_live_indicator, h404, if_true, payloadKind_errObj]
      exact msgKind_notFound_live code ind
    | false =>
      simp only [get_live_indicator, h404, if_false, payloadKind_errObj]
      exact msgKind_apiError (toString status) em

/-- CLAIM C4: for a code whose upper-cased form appears in the store's
code column, the indicators resource keeps a non-empty set of rows, every
kept row's code cell equals the upper-cased requested code exactly, and
the returned string is the serialization of exactly those rows. -/
theorem indicators_found_rows (w : World) (df : DataFrame) (code : String) (i : Nat)
    (hfile : w.file = some df)
    (hcol : df.columns.findIdx? (fun x => x == "countryiso3code") = some i)
    (_hstrcol : df.rows.all (fun r => isStrCell (cellAt r i)) = true)
    (hhit : df.rows.any (fun r => cellEqStr (cellAt r i) (pyUpper code)) = true) :
    matchedRows df i (pyUpper code) ≠ [] ∧
    (∀ r ∈ matchedRows df i (pyUpper code), cellAt r i = Cell.str (pyUpper code)) ∧
    get_country_indicators w code =
      .ok (DataFrame.writeJson ⟨df.columns, df.dtypes, matchedRows df i (pyUpper code)⟩) := by
  obtain ⟨r, hr, hpred⟩ := List.any_eq_true.mp hhit
  have hmem : r ∈ matchedRows df i (pyUpper code) :=
    List.mem_filter.mpr ⟨hr, hpred⟩
  have hne : matchedRows df i (pyUpper code) ≠ [] := List.ne_nil_of_mem hmem
  have hie : (matchedRows df i (pyUpper code)).isEmpty = false := by
    cases hb : (matchedRows df i (pyUpper code)).isEmpty
    · rfl
    · exact absurd (List.isEmpty_iff.mp hb) hne
  refine ⟨hne, ?_, ?_⟩
  · intro r2 hr2
    exact (cellEqStr_iff _ _).mp (List.mem_filter.mp hr2).2
  · simp [get_country_indicators, _load_data, hfile, DataFrame.filterColEq, hcol, hie]

/-- Witness for C4 at a concrete store holding two string-coded rows and
the request "usa". -/
theorem indicators_found_rows_witness :
    (World.mk (some ⟨["countryiso3code", "country"], ["str", "str"],
        [[Cell.str "USA", Cell.str "United States"], [Cell.str "CHN", Cell.str "China"]]⟩)
      0).file =
      some ⟨["countryiso3code", "country"], ["str", "str"],
        [[Cell.str "USA", Cell.str "United States"], [Cell.str "CHN", Cell.str "China"]]⟩ ∧
    (matchedRows ⟨["countryiso3code", "country"], ["str", "str"],
        [[Cell.str "USA", Cell.str "United States"], [Cell.str "CHN", Cell.str "China"]]⟩
        0 ((pyUpper "usa")) ≠ [] ∧
      (∀ r ∈ matchedRows ⟨["countryiso3code", "country"], ["str", "str"],
          [[Cell.str "USA", Cell.str "United States"], [Cell.str "CHN", Cell.str "China"]]⟩
          0 ((pyUpper "usa")), cellAt r 0 = Cell.str ((pyUpper "usa"))) ∧
      get_country_indicators
        (World.mk (some ⟨["countryiso3code", "country"], ["str", "str"],
          [[Cell.str "USA", Cell.str "United States"], [Cell.str "CHN", Cell.str "China"]]⟩) 0)
        "usa" =
        .ok (DataFrame.writeJson ⟨["countryiso3code", "country"], ["str", "str"],
          matchedRows ⟨["countryiso3code", "country"], ["str", "str"],
            [[Cell.str "USA", Cell.str "United States"], [Cell.str "CHN", Cell.str "China"]]⟩
            0 ((pyUpper "usa"))⟩)) :=
  ⟨rfl, indicators_found_rows _ _ "usa" 0 rfl (by decide) (by decide) (by decide)⟩

/-- CLAIM C5: for a code whose upper-cased form matches no row, the
indicators resource returns exactly the serialized payload
`{"error": "Country code '<code>' not found in local dataset"}` with the
code exactly as the caller gave it, not upper-cased. -/
theorem indicators_not_found_payload (w : World) (df : DataFrame) (code : String) (i : Nat)
    (hfile : w.file = some df)
    (hcol : df.columns.findIdx? (fun x => x == "countryiso3code") = some i)
    (_hstrcol : df.rows.all (fun r => isStrCell (cellAt r i)) = true)
    (hmiss : df.rows.any (fun r => cellEqStr (cellAt r i) (pyUpper code)) = false) :
    get_country_indicators w code =
      .ok (dumpsError ("Country code '" ++ code ++ "' not found in local dataset")) := by
  have hnil : matchedRows df i (pyUpper code) = [] :=
    List.filter_eq_nil_iff.mpr (by
      intro a ha
      exact (List.any_eq_false.mp hmiss) a ha)
  have hie : (matchedRows df i (pyUpper code)).isEmpty = true := by
    rw [hnil]; rfl
  simp [get_country_indicators, _load_data, hfile, DataFrame.filterColEq, hcol, hie]

/-- Witness for C5 at the same concrete store and the absent code "xyz". -/
theorem indicators_not_found_payload_witness :
    (World.mk (some ⟨["countryiso3code", "country"], ["str", "str"],
        [[Cell.str "USA", Cell.str "United States"], [Cell.str "CHN", Cell.str "China"]]⟩)
      0).file =
      some ⟨["countryiso3code", "country"], ["str", "str"],
        [[Cell.str "USA", Cell.str "United States"], [Cell.str "CHN", Cell.str "China"]]⟩ ∧
    get_country_indicators
      (World.mk (some ⟨["countryiso3code", "country"], ["str", "str"],
        [[Cell.str "USA", Cell.str "United States"], [Cell.str "CHN", Cell.str "China"]]⟩) 0)
      "xyz" =
      .ok (dumpsError ("Country code '" ++ "xyz" ++ "' not found in local dataset")) :=
  ⟨rfl, indicators_not_found_payload _ _ "xyz" 0 rfl (by decide) (by decide) (by decide)⟩

/-- An observation built by `mkObservation` carries no `error` key: a
null `value` is a success payload, not an Error Payload. -/
theorem isErrorPayload_mkObservation (r : Json) (c i : String) (y : Int) (obs : Json)
    (h : mkObservation r c i y = .ok obs) : isErrorPayload obs = false := by
  unfold mkObservation at h
  rcases h1 : pyDictGet r "country" (.obj []) with e | countryField
  · simp [h1] at h
  simp only [h1] at h
  rcases h2 : pyDictGet countryField "value" (.str "N/A") with e | cn
  · simp [h2] at h
  simp only [h2] at h
  rcases h3 : pyDictGet r "indicator" (.obj []) with e | indicatorField
  · simp [h3] at h
  simp only [h3] at h
  rcases h4 : pyDictGet indicatorField "value" (.str "N/A") with e | iname
  · simp [h4] at h
  simp only [h4] at h
  rcases h5 : pyDictGet r "value" Json.null with e | v
  · simp [h5] at h
  simp only [h5] at h
  cases h
  rfl

/-- The record scan passes over a run of records none of whose dates
compare equal to the requested year. -/
theorem scanRecords_all_nomatch (code ind : String) (year : Int) (records : List Json)
    (h : ∀ x ∈ records, ∃ xfs, x = Json.obj xfs ∧
        jsonEqStr ((lookupStr xfs "date").getD Json.null) (toString year) = false) :
    scanRecords code ind year records = .ok none := by
  induction records with
  | nil => rfl
  | cons r rest ih =>
    obtain ⟨xfs, hx, hdate⟩ := h r (by simp)
    subst hx
    simp [scanRecords, pyDictGet, hdate, ih (fun x hx2 => h x (by simp [hx2]))]

/-- The record scan stops at the first record whose date compares equal to
the requested year and yields its observation. -/
theorem scanRecords_first_match (code ind : String) (year : Int)
    (pre post : List Json) (fs : List (String × Json)) (obs : Json)
    (hpre : ∀ x ∈ pre, ∃ xfs, x = Json.obj xfs ∧
        jsonEqStr ((lookupStr xfs "date").getD Json.null) (toString year) = false)
    (hdate : jsonEqStr ((lookupStr fs "date").getD Json.null) (toString year) = true)
    (hobs : mkObservation (Json.obj fs) code ind year = .ok obs) :
    scanRecords code ind year (pre ++ Json.obj fs :: post) = .ok (some obs) := by
  induction pre with
  | nil => simp [scanRecords, pyDictGet, hdate, hobs]
  | cons r rest ih =>
    obtain ⟨xfs, hx, hd⟩ := hpre r (by simp)
    subst hx
    simp [scanRecords, pyDictGet, hd, ih (fun x hx2 => hpre x (by simp [hx2]))]

/-- The two absence messages of the live-indicator tool differ, whatever
stands after their fixed fronts. -/
theorem noData_messages_distinct (t1 t2 : String) :
    ("No data available for " ++ t1) ≠ ("No data found for " ++ t2) := by
  intro h
  have h1 : strStarts "No data a" ("No data available for " ++ t1) = true := by
    rw [show ("No data available for " : String) = "No data a" ++ "vailable for " from rfl,
      String.append_assoc]
    exact strStarts_append_self _ _
  have h2 : strStarts "No data a" ("No data found for " ++ t2) = false :=
    strStarts_append_false _ _ _ (by decide)
  rw [h] at h1
  rw [h1] at h2
  exact Bool.noConfusion h2

/-- CLAIM C7: on upstream success the live-indicator tool is a three-way
case analysis over the envelope's records: an absent or empty records
element gives the "No data available" payload; otherwise the first record
in scan order whose date string-equals the year gives the Indicator
Observation (no `error` key, so a null value is success); and a non-empty
record list with no matching date gives the "No data found" payload, a
message distinct from the no-records one. -/
theorem live_indicator_success_cases (code ind : String) (year : Int) (meta : Json) :
    (get_live_indicator (.success (.arr [meta])) code ind year =
        errObj ("No data available for " ++
          (code ++ " / " ++ ind ++ " in " ++ toString year)) ∧
      get_live_indicator (.success (.arr [meta, .arr []])) code ind year =
        errObj ("No data available for " ++
          (code ++ " / " ++ ind ++ " in " ++ toString year))) ∧
    (∀ (pre post : List Json) (fs : List (String × Json)) (obs : Json),
      (∀ x ∈ pre, ∃ xfs, x = Json.obj xfs ∧
          jsonEqStr ((lookupStr xfs "date").getD Json.null) (toString year) = false) →
      jsonEqStr ((lookupStr fs "date").getD Json.null) (toString year) = true →
      mkObservation (Json.obj fs) code ind year = .ok obs →
      get_live_indicator (.success (.arr [meta, .arr (pre ++ Json.obj fs :: post)]))
          code ind year = obs ∧
        isErrorPayload obs = false) ∧
    (∀ records : List Json, records ≠ [] →
      (∀ x ∈ records, ∃ xfs, x = Json.obj xfs ∧
          jsonEqStr ((lookupStr xfs "date").getD Json.null) (toString year) = false) →
      get_live_indicator (.success (.arr [meta, .arr records])) code ind year =
        errObj ("No data found for " ++
          (code ++ " / " ++ ind ++ " in " ++ toString year))) ∧
    (∀ t1 t2 : String, ("No data available for " ++ t1) ≠ ("No data found for " ++ t2)) := by
  refine ⟨⟨?_, ?_⟩, ?_, ?_, noData_messages_distinct⟩
  · simp [get_live_indicator, wbRun, wbExtractRecords, Json.falsy, String.append_assoc]
  · simp [get_live_indicator, wbRun, wbExtractRecords, Json.falsy, String.append_assoc]
  · intro pre post fs obs hpre hdate hobs
    have hl : (pre ++ Json.obj fs :: post).isEmpty = false := by cases pre <;> rfl
    refine ⟨?_, isErrorPayload_mkObservation _ _ _ _ _ hobs⟩
    simp [get_live_indicator, wbRun, wbExtractRecords, Json.falsy, hl, pyIter,
      scanRecords_first_match code ind year pre post fs obs hpre hdate hobs]
  · intro records hne hall
    have hl : records.isEmpty = false := by
      cases records with
      | nil => exact absurd rfl hne
      | cons a l => rfl
    simp [get_live_indicator, wbRun, wbExtractRecords, Json.falsy, hl, pyIter,
      scanRecords_all_nomatch code ind year records hall, String.append_assoc]

/-- Witness for C7 at a concrete two-record envelope whose second record
matches the year 2022 and carries a null value. -/
theorem live_indicator_success_cases_witness :
    jsonEqStr ((lookupStr [("date", Json.str "2021")] "date").getD Json.null)
        (toString (2022 : Int)) = false ∧
    jsonEqStr ((lookupStr [("date", Json.str "2022"),
        ("country", Json.obj [("value", Json.str "United States")]),
        ("indicator", Json.obj [("value", Json.str "GDP per capita")]),
        ("value", Json.null)] "date").getD Json.null) (toString (2022 : Int)) = true ∧
    mkObservation (Json.obj [("date", Json.str "2022"),
        ("country", Json.obj [("value", Json.str "United States")]),
        ("indicator", Json.obj [("value", Json.str "GDP per capita")]),
        ("value", Json.null)]) "USA" "NY.GDP.PCAP.CD" 2022 =
      .ok (Json.obj [("country", Json.str "USA"),
        ("country_name", Json.str "United States"),
        ("indicator", Json.str "NY.GDP.PCAP.CD"),
        ("indicator_name", Json.str "GDP per capita"),
        ("year", Json.num 2022), ("value", Json.null)]) ∧
    (get_live_indicator (.success (.arr [Json.null,
        .arr ([Json.obj [("date", Json.str "2021")]] ++
          Json.obj [("date", Json.str "2022"),
            ("country", Json.obj [("value", Json.str "United States")]),
            ("indicator", Json.obj [("value", Json.str "GDP per capita")]),
            ("value", Json.null)] :: [])])) "USA" "NY.GDP.PCAP.CD" 2022 =
        Json.obj [("country", Json.str "USA"),
          ("country_name", Json.str "United States"),
          ("indicator", Json.str "NY.GDP.PCAP.CD"),
          ("indicator_name", Json.str "GDP per capita"),
          ("year", Json.num 2022), ("value", Json.null)] ∧
      isErrorPayload (Json.obj [("country", Json.str "USA"),
        ("country_name", Json.str "United States"),
        ("indicator", Json.str "NY.GDP.PCAP.CD"),
        ("indicator_name", Json.str "GDP per capita"),
        ("year", Json.num 2022), ("value", Json.null)]) = false) :=
  ⟨rfl, rfl, rfl,
    (live_indicator_success_cases "USA" "NY.GDP.PCAP.CD" 2022 Json.null).2.1
      [Json.obj [("date", Json.str "2021")]] []
      [("date", Json.str "2022"),
        ("country", Json.obj [("value", Json.str "United States")]),
        ("indicator", Json.obj [("value", Json.str "GDP per capita")]),
        ("value", Json.null)]
      (Json.obj [("country", Json.str "USA"),
        ("country_name", Json.str "United States"),
        ("indicator", Json.str "NY.GDP.PCAP.CD"),
        ("indicator_name", Json.str "GDP per capita"),
        ("year", Json.num 2022), ("value", Json.null)])
      (by
        intro x hx
        simp at hx
        subst hx
        exact ⟨[("date", Json.str "2021")], rfl, rfl⟩)
      rfl rfl⟩

/-- CLAIM C8: for a successful upstream response `get_country_info` uses
only the first element of the returned array, and reshapes it with the
documented defaults for absent fields: capital defaults to the list
["N/A"] whose first element is taken, region and subregion to "N/A",
population to 0, flag to the empty string, languages and currencies to
empty sequences. -/
theorem country_info_first_match_defaults (code : String) :
    (∀ (x : Json) (rest : List Json),
      get_country_info (.success (.arr (x :: rest))) code =
        get_country_info (.success (.arr [x])) code) ∧
    (∀ (fs : List (String × Json)) (nameJ nm : Json) (rest : List Json),
      lookupStr fs "name" = some nameJ →
      pySubscript nameJ "common" = .ok nm →
      lookupStr fs "capital" = none →
      lookupStr fs "region" = none →
      lookupStr fs "subregion" = none →
      lookupStr fs "languages" = none →
      lookupStr fs "currencies" = none →
      lookupStr fs "population" = none →
      lookupStr fs "flag" = none →
      get_country_info (.success (.arr (Json.obj fs :: rest))) code =
        .obj [("name", nm), ("capital", Json.str "N/A"), ("region", Json.str "N/A"),
          ("subregion", Json.str "N/A"), ("languages", Json.arr []),
          ("currencies", Json.arr []), ("population", Json.num 0),
          ("flag", Json.str "")]) := by
  constructor
  · intro x rest
    rfl
  · intro fs nameJ nm rest hname hcommon hcap hreg hsub hlang hcur hpop hflag
    have h1 : pySubscript (Json.obj fs) "name" = .ok nameJ := by
      simp [pySubscript, hname]
    simp [get_country_info, restCountriesBuild, pyIndex0, buildCountryInfo,
      pyDictGet, pyValues, pyKeys, h1, hcommon, hcap, hreg, hsub,
      hlang, hcur, hpop, hflag]

/-- Witness for C8 at a first match that has only its common name, with a
second array element present and ignored. -/
theorem country_info_first_match_defaults_witness :
    lookupStr [("name", Json.obj [("common", Json.str "France")])] "name" =
      some (Json.obj [("common", Json.str "France")]) ∧
    pySubscript (Json.obj [("common", Json.str "France")]) "common" =
      .ok (Json.str "France") ∧
    get_country_info (.success (.arr (Json.obj [("name",
        Json.obj [("common", Json.str "France")])] :: [Json.bool true]))) "FR" =
      .obj [("name", Json.str "France"), ("capital", Json.str "N/A"),
        ("region", Json.str "N/A"), ("subregion", Json.str "N/A"),
        ("languages", Json.arr []), ("currencies", Json.arr []),
        ("population", Json.num 0), ("flag", Json.str "")] :=
  ⟨rfl, rfl,
    (country_info_first_match_defaults "FR").2
      [("name", Json.obj [("common", Json.str "France")])]
      (Json.obj [("common", Json.str "France")]) (Json.str "France") [Json.bool true]
      rfl rfl rfl rfl rfl rfl rfl rfl rfl⟩

/-- CLAIM C10: when the first upstream match is present but malformed —
any fault while reshaping it, in particular a missing `name`/`name.common`
field or a `capital` field present as an empty list — `get_country_info`
does not return a defaulted success payload: the exception is swallowed by
the catch-all and the caller receives an "Unexpected error" payload. -/
theorem country_info_malformed_first_match (code : String) :
    (∀ (body : Json) (m : String), restCountriesBuild body = .error m →
      get_country_info (.success body) code = errObj ("Unexpected error: " ++ m)) ∧
    (∀ (fs : List (String × Json)) (rest : List Json),
      lookupStr fs "name" = none →
      get_country_info (.success (.arr (Json.obj fs :: rest))) code =
        errObj ("Unexpected error: " ++ "KeyError: name")) ∧
    (∀ (fs nfs : List (String × Json)) (rest : List Json),
      lookupStr fs "name" = some (Json.obj nfs) →
      lookupStr nfs "common" = none →
      get_country_info (.success (.arr (Json.obj fs :: rest))) code =
        errObj ("Unexpected error: " ++ "KeyError: common")) ∧
    (∀ (fs : List (String × Json)) (nameJ nm : Json) (rest : List Json),
      lookupStr fs "name" = some nameJ →
      pySubscript nameJ "common" = .ok nm →
      lookupStr fs "capital" = some (Json.arr []) →
      get_country_info (.success (.arr (Json.obj fs :: rest))) code =
        errObj ("Unexpected error: " ++ "list index out of range")) := by
  refine ⟨?_, ?_, ?_, ?_⟩
  · intro body m h
    simp [get_country_info, h]
  · intro fs rest hname
    have h1 : pySubscript (Json.obj fs) "name" = .error "KeyError: name" := by
      simp [pySubscript, hname]
    simp [get_country_info, restCountriesBuild, pyIndex0, buildCountryInfo, h1]
  · intro fs nfs rest hname hcommon
    have h1 : pySubscript (Json.obj fs) "name" = .ok (Json.obj nfs) := by
      simp [pySubscript, hname]
    have h2 : pySubscript (Json.obj nfs) "common" = .error "KeyError: common" := by
      simp [pySubscript, hcommon]
    simp [get_country_info, restCountriesBuild, pyIndex0, buildCountryInfo, h1, h2]
  · intro fs nameJ nm rest hname hcommon hcap
    have h1 : pySubscript (Json.obj fs) "name" = .ok nameJ := by
      simp [pySubscript, hname]
    simp [get_country_info, restCountriesBuild, pyIndex0, buildCountryInfo,
      pyDictGet, h1, hcommon, hcap]

/-- Witness for C10 at a first match carrying a common name but an empty
capital list. -/
theorem country_info_malformed_first_match_witness :
    lookupStr [("name", Json.obj [("common", Json.str "France")]),
        ("capital", Json.arr [])] "name" =
      some (Json.obj [("common", Json.str "France")]) ∧
    lookupStr [("name", Json.obj [("common", Json.str "France")]),
        ("capital", Json.arr [])] "capital" = some (Json.arr []) ∧
    get_country_info (.success (.arr [Json.obj [("name",
        Json.obj [("common", Json.str "France")]), ("capital", Json.arr [])]])) "FR" =
      errObj ("Unexpected error: " ++ "list index out of range") :=
  ⟨rfl, rfl,
    (country_info_malformed_first_match "FR").2.2.2
      [("name", Json.obj [("common", Json.str "France")]), ("capital", Json.arr [])]
      (Json.obj [("common", Json.str "France")]) (Json.str "France") []
      rfl rfl rfl⟩
